import Mathlib

/-- A device record as stored by the gateway: owner id, enabled flag, push
token, and the two usage counters (absent on a device that was never
incremented, mirroring optional mongoose fields). -/
structure Device where
  user : String
  enabled : Bool
  fcmToken : String
  sentSMSCount : Option Nat
  receivedSMSCount : Option Nat
  deriving DecidableEq

/-- Aggregate outcome returned by the push transport for one sendEach call
(firebase BatchResponse): counts of accepted and rejected payloads. -/
structure BatchResponse where
  successCount : Nat
  failureCount : Nat
  deriving DecidableEq

/-- The value found in a recipients-typed field of an incoming JSON payload.
JavaScript distinguishes more cases than a typed list: the field can be an
array (truthy even when empty), a truthy non-array value that still exposes a
numeric length property (for example a string), or anything falsy
(undefined, null, an empty string, zero) which behaves like an absent field
throughout this code. -/
inductive RecipientsField where
  | absent
  | arr (l : List String)
  | nonArr (len : Nat)
  deriving DecidableEq

/-- The JavaScript or-chain smsData.recipients or-else smsData.receivers:
a falsy left operand falls through to the right one, any truthy value
(including an empty array) is kept. -/
def RecipientsField.orJS : RecipientsField → RecipientsField → RecipientsField
  | .absent, b => b
  | a, _ => a

/-- Body of a single-send request (SendSMSInputDTO): message body and the
recipient list, each accepted under a current and a legacy field name. -/
structure SendSMSInput where
  message : Option String
  smsBody : Option String
  recipients : RecipientsField
  receivers : RecipientsField

/-- One sub-message of a bulk-send request: its own body and recipient list. -/
structure BulkSubMessage where
  message : Option String
  recipients : RecipientsField

/-- Body of a bulk-send request (SendBulkSMSInputDTO): the shared template and
the sub-message list (none models an absent or non-array messages field, on
which the first property access throws). -/
structure SendBulkSMSInput where
  messageTemplate : Option String
  messages : Option (List BulkSubMessage)

/-- Body of an inbound report (ReceivedSMSDTO). The absolute timestamp is a
Date, modelled by its epoch-millis instant; a present Date object is always
truthy. The receivedAtInMillis field is a number, falsy when zero. -/
structure ReceivedSMSDTO where
  receivedAt : Option Int
  receivedAtInMillis : Option Int
  sender : Option String
  message : Option String

/-- The inbound MessageUnit persisted by receiveSMS, projected to the fields
the claims talk about (sender, body, stored receivedAt instant). -/
structure SMSRecord where
  sender : String
  message : String
  receivedAt : Int
  deriving DecidableEq

/-- Cause attached to the catch-all transport failure of the single-send path:
either the transport call itself threw, or the zero-success HttpException
thrown inside the try block was re-caught and re-wrapped by the same catch. -/
inductive SendFailureCause where
  | transportException (cause : String)
  | zeroSuccessRethrown (resp : BatchResponse)
  deriving DecidableEq

/-- Every caller-visible error of the gateway service, one constructor per
distinct throw site, plus typeError for a raw JavaScript TypeError raised by
a property access on undefined (prop names the accessed property). -/
inductive GErr where
  | deviceUnavailable
  | notFound
  | typeError (prop : String)
  | quotaExceeded
  | emptyMessage
  | invalidRecipients
  | batchPersistError (cause : String)
  | invalidMessageList
  | recipientLimitExceeded
  | bulkPersistException (cause : String)
  | sendFailure (c : SendFailureCause)
  | invalidInboundMessage
  deriving DecidableEq

/-- Observable side effects of one gateway call, in program order: quota-guard
consultations, persisted batch and message records, transport invocations,
scheduled fire-and-forget counter increments and webhook notifications. -/
inductive Event where
  | quotaCheck (action : String) (units : Nat)
  | batchCreated (batchId : Nat) (recipientCount : Nat)
  | smsCreatedSent (batchId : Nat) (message : String) (recipient : String)
  | transportSend (payloadCount : Nat)
  | smsCreatedReceived (sender : String) (message : String) (receivedAt : Int)
  | counterIncrement (field : String) (amount : Nat)
  | webhookTriggered (event : String)
  deriving DecidableEq

/-- Environment a gateway call runs in: the device the deviceId resolves to,
the quota-guard decision (by owner, action and unit count), the outcome of
creating the SMSBatch record, and the outcome of the n-th transport sendEach
call of this request. -/
structure Env where
  device : Option Device
  quota : String → String → Nat → Bool
  batchCreate : Except String Nat
  transport : Nat → Except String BatchResponse

/-- JavaScript truthiness test for an optional string: absent or empty is
falsy. -/
def jsFalsyStr : Option String → Bool
  | none => true
  | some s => s == ""

/-- JavaScript or-chain for two optional strings, as in
smsData.message or-else smsData.smsBody: a falsy left operand falls through. -/
def strOr : Option String → Option String → Option String
  | some s, b => if s == "" then b else some s
  | none, b => b

/-- JavaScript truthiness of the numeric receivedAtInMillis field: a present
nonzero number is truthy, zero or absent is falsy. -/
def jsTruthyMillis : Option Int → Bool
  | none => false
  | some m => m != 0

/-- getRecipientsPreview from the source: display string over the ordered
recipient list, null (none) when the list is empty. -/
def getRecipientsPreview (recipients : List String) : Option String :=
  if recipients.length = 0 then none
  else if recipients.length = 1 then some (recipients.getD 0 "")
  else if recipients.length = 2 then
    some (recipients.getD 0 "" ++ " and " ++ recipients.getD 1 "")
  else if recipients.length = 3 then
    some (recipients.getD 0 "" ++ ", " ++ recipients.getD 1 "" ++ ", and "
      ++ recipients.getD 2 "")
  else
    some (recipients.getD 0 "" ++ ", " ++ recipients.getD 1 "" ++ ", and "
      ++ toString (recipients.length - 2) ++ " others")

/-- The recipient-preview shape written in the specification, case by case
over the list: 0 items give none, 1 the item, 2 "A and B", 3 "A, B, and C",
more "A, B, and N others" with N the count minus 2. Stated from the spec's
words, to be compared with getRecipientsPreview. -/
def specRecipientPreview : List String → Option String
  | [] => none
  | [a] => some a
  | [a, b] => some (a ++ " and " ++ b)
  | [a, b, c] => some (a ++ ", " ++ b ++ ", and " ++ c)
  | a :: b :: rest => some (a ++ ", " ++ b ++ ", and " ++ toString rest.length
      ++ " others")

/-- The user statistics record returned by getStatsForUser. -/
structure UserStats where
  totalSentSMSCount : Nat
  totalReceivedSMSCount : Nat
  totalDeviceCount : Nat
  totalApiKeyCount : Nat
  deriving DecidableEq

/-- getStatsForUser from the source: reduce over the user's devices with an
absent counter read as 0 (the JavaScript or-zero), plus device and api-key
counts. -/
def getStatsForUser (devices : List Device) (apiKeys : List String) : UserStats :=
  { totalSentSMSCount :=
      devices.foldl (fun acc d => acc + d.sentSMSCount.getD 0) 0
    totalReceivedSMSCount :=
      devices.foldl (fun acc d => acc + d.receivedSMSCount.getD 0) 0
    totalDeviceCount := devices.length
    totalApiKeyCount := apiKeys.length }

/-- The device store keyed by device id, backing findById and deleteDevice. -/
abbrev DeviceStore := List (String × Device)

/-- deviceModel.findById over the store. -/
def findById (store : DeviceStore) (deviceId : String) : Option Device :=
  (store.find? (fun p => p.1 == deviceId)).map (·.2)

/-- deleteDevice from the source: a 404 when the device id resolves to
nothing, otherwise an empty acknowledgement; the actual findByIdAndDelete is
commented out, so the store is returned unchanged in every case. -/
def deleteDevice (store : DeviceStore) (deviceId : String) :
    Except GErr Unit × DeviceStore :=
  match findById store deviceId with
  | none => (.error .notFound, store)
  | some _ => (.ok (), store)

/-- n repeated deleteDevice calls for the same device id, threading the
store. -/
def deleteDeviceIter (store : DeviceStore) (deviceId : String) : Nat → DeviceStore
  | 0 => store
  | n + 1 => (deleteDevice (deleteDeviceIter store deviceId n) deviceId).2

/-- sendSMS from the source, in source order: resolve the device (missing or
disabled both fail), resolve body and recipients through the legacy-name
or-chains, evaluate recipients.length for the quota call (a TypeError when
the resolved recipients value is falsy), consult the quota guard, reject a
blank body, reject a non-array or empty recipient list, create the SMSBatch
record, create one SENT MessageUnit and one push payload per recipient,
invoke the transport once, re-throw a zero-success response through the
enclosing catch, and otherwise schedule the sentSMSCount increment and return
the raw transport response. The event list records the side effects in
program order. -/
def sendSMS (env : Env) (smsData : SendSMSInput) :
    Except GErr BatchResponse × List Event :=
  match env.device with
  | none => (.error .deviceUnavailable, [])
  | some device =>
    if device.enabled = false then (.error .deviceUnavailable, [])
    else
      let message := strOr smsData.message smsData.smsBody
      match RecipientsField.orJS smsData.recipients smsData.receivers with
      | .absent => (.error (.typeError "length"), [])
      | .nonArr len =>
        let tr := [Event.quotaCheck "send_sms" len]
        if env.quota device.user "send_sms" len = false then
          (.error .quotaExceeded, tr)
        else if jsFalsyStr message then (.error .emptyMessage, tr)
        else (.error .invalidRecipients, tr)
      | .arr recips =>
        let tr := [Event.quotaCheck "send_sms" recips.length]
        if env.quota device.user "send_sms" recips.length = false then
          (.error .quotaExceeded, tr)
        else if jsFalsyStr message then (.error .emptyMessage, tr)
        else if recips.length = 0 then (.error .invalidRecipients, tr)
        else
          let msg := message.getD ""
          match env.batchCreate with
          | .error cause => (.error (.batchPersistError cause), tr)
          | .ok batchId =>
            let tr := tr ++ [Event.batchCreated batchId recips.length]
              ++ recips.map (fun r => Event.smsCreatedSent batchId msg r)
              ++ [Event.transportSend recips.length]
            match env.transport 0 with
            | .error cause =>
              (.error (.sendFailure (.transportException cause)), tr)
            | .ok resp =>
              if resp.successCount = 0 then
                (.error (.sendFailure (.zeroSuccessRethrown resp)), tr)
              else
                (.ok resp,
                  tr ++ [Event.counterIncrement "sentSMSCount" resp.successCount])

/-- Length contribution of one recipients value to
messages.map(m to m.recipients).flat().length: an array contributes its
element count, while any non-array value (undefined included) survives flat
as a single element. -/
def flatLen : RecipientsField → Nat
  | .arr l => l.length
  | _ => 1

/-- Total recipient count of a bulk request as the source computes it for the
quota call and the two list checks. -/
def totalFlatRecipients (messages : List BulkSubMessage) : Nat :=
  (messages.map (fun m => flatLen m.recipients)).sum

/-- The length property read m.recipients.length performs: a TypeError (none)
on a falsy value, the element count of an array, the numeric length of a
truthy non-array. -/
def recLengthJS : RecipientsField → Option Nat
  | .absent => none
  | .arr l => some l.length
  | .nonArr len => some len

/-- messages.map(m to m.recipients.length).reduce(sum, 0), the recipientCount
stored on the bulk SMSBatch record; none when some sub-message's recipients
value is falsy, since reading its length throws. -/
def recipientsLengthSum : List BulkSubMessage → Option Nat
  | [] => some 0
  | m :: rest =>
    match recLengthJS m.recipients, recipientsLengthSum rest with
    | some n, some s => some (n + s)
    | _, _ => none

/-- The aggregate object sendBulkSMS returns. -/
structure BulkResult where
  success : Bool
  successCount : Nat
  failureCount : Nat
  fcmResponses : List BatchResponse
  deriving DecidableEq

/-- The per-sub-message dispatch loop of sendBulkSMS: a falsy body or a
non-array or empty recipient list makes the loop continue to the next
sub-message; otherwise one SENT MessageUnit and one payload per recipient are
created and the transport is invoked once for the sub-message (k numbers the
transport calls of the request). A transport exception is logged and the loop
continues; a response is collected and the sentSMSCount increment by its
successCount is scheduled. Returns the collected responses, the side-effect
events, and the next transport call index. -/
def bulkDispatchLoop (tp : Nat → Except String BatchResponse) (batchId : Nat) :
    Nat → List BulkSubMessage → List BatchResponse × List Event × Nat
  | k, [] => ([], [], k)
  | k, sub :: rest =>
    if jsFalsyStr sub.message then bulkDispatchLoop tp batchId k rest
    else
      match sub.recipients with
      | .arr recips =>
        if recips.length = 0 then bulkDispatchLoop tp batchId k rest
        else
          let msg := sub.message.getD ""
          let evs := recips.map (fun r => Event.smsCreatedSent batchId msg r)
            ++ [Event.transportSend recips.length]
          match tp k with
          | .error _cause =>
            let out := bulkDispatchLoop tp batchId (k + 1) rest
            (out.1, evs ++ out.2.1, out.2.2)
          | .ok resp =>
            let out := bulkDispatchLoop tp batchId (k + 1) rest
            (resp :: out.1,
              evs ++ [Event.counterIncrement "sentSMSCount" resp.successCount]
                ++ out.2.1,
              out.2.2)
      | _ => bulkDispatchLoop tp batchId k rest

/-- Whether the bulk dispatch loop skips a sub-message: falsy body, or a
recipients value that is not a non-empty array. -/
def isSkippedSub (sub : BulkSubMessage) : Bool :=
  jsFalsyStr sub.message ||
    (match sub.recipients with
     | .arr l => l.isEmpty
     | _ => true)

/-- sendBulkSMS from the source, in source order: resolve the device (missing
or disabled both fail), read the sub-message list (a TypeError when absent),
consult the quota guard with the flattened total recipient count, reject an
empty list or zero total, reject a total above 50, compute the stored
recipientCount by summing each sub-message's recipients.length (a TypeError
when one is falsy), create the SMSBatch record (an uncaught rejection
propagates raw), run the dispatch loop, and aggregate the collected responses
by reducing their success and failure counts, with overall success exactly
when the success sum is positive. -/
def sendBulkSMS (env : Env) (body : SendBulkSMSInput) :
    Except GErr BulkResult × List Event :=
  match env.device with
  | none => (.error .deviceUnavailable, [])
  | some device =>
    if device.enabled = false then (.error .deviceUnavailable, [])
    else
      match body.messages with
      | none => (.error (.typeError "map"), [])
      | some messages =>
        let total := totalFlatRecipients messages
        let tr := [Event.quotaCheck "bulk_send_sms" total]
        if env.quota device.user "bulk_send_sms" total = false then
          (.error .quotaExceeded, tr)
        else if messages.length == 0 || total == 0 then
          (.error .invalidMessageList, tr)
        else if 50 < total then (.error .recipientLimitExceeded, tr)
        else
          match recipientsLengthSum messages with
          | none => (.error (.typeError "length"), tr)
          | some recipientCount =>
            match env.batchCreate with
            | .error cause => (.error (.bulkPersistException cause), tr)
            | .ok batchId =>
              let out := bulkDispatchLoop env.transport batchId 0 messages
              let successCount :=
                out.1.foldl (fun acc m => acc + m.successCount) 0
              let failureCount :=
                out.1.foldl (fun acc m => acc + m.failureCount) 0
              (.ok { success := decide (0 < successCount), successCount,
                     failureCount, fcmResponses := out.1 },
                tr ++ [Event.batchCreated batchId recipientCount] ++ out.2.1)

/-- The validity test of receiveSMS on the inbound DTO: invalid when both
timestamp fields are falsy, or the sender is falsy, or the body is falsy. -/
def invalidInbound (dto : ReceivedSMSDTO) : Bool :=
  (dto.receivedAt.isNone && !jsTruthyMillis dto.receivedAtInMillis)
    || jsFalsyStr dto.sender || jsFalsyStr dto.message

/-- receiveSMS from the source, in source order: resolve the device (only
existence is checked, the enabled flag is not), consult the quota guard for
one receive_sms unit, reject an invalid DTO, store the RECEIVED MessageUnit
with receivedAt taken from the millis field when that field is truthy and
from the absolute timestamp otherwise, then schedule the receivedSMSCount
increment and the webhook notification and return the stored record. -/
def receiveSMS (env : Env) (dto : ReceivedSMSDTO) :
    Except GErr SMSRecord × List Event :=
  match env.device with
  | none => (.error .deviceUnavailable, [])
  | some device =>
    let tr := [Event.quotaCheck "receive_sms" 1]
    if env.quota device.user "receive_sms" 1 = false then
      (.error .quotaExceeded, tr)
    else if invalidInbound dto then (.error .invalidInboundMessage, tr)
    else
      let receivedAt : Int :=
        if jsTruthyMillis dto.receivedAtInMillis then
          dto.receivedAtInMillis.getD 0
        else dto.receivedAt.getD 0
      let sms : SMSRecord :=
        { sender := dto.sender.getD "", message := dto.message.getD "",
          receivedAt := receivedAt }
      (.ok sms,
        tr ++ [Event.smsCreatedReceived sms.sender sms.message receivedAt,
               Event.counterIncrement "receivedSMSCount" 1,
               Event.webhookTriggered "MESSAGE_RECEIVED"])

/-- A left fold adding f over a list, started at a, is a plus the sum of the
mapped list. -/
theorem foldl_add_eq_sum_aux {α : Type} (f : α → Nat) (l : List α) (a : Nat) :
    l.foldl (fun acc x => acc + f x) a = a + (l.map f).sum := by
  induction l generalizing a with
  | nil => simp
  | cons x xs ih => simp [List.foldl_cons, ih]; omega

/-- The reduce-with-plus the source uses equals the sum of the mapped list. -/
theorem foldl_add_eq_sum {α : Type} (f : α → Nat) (l : List α) :
    l.foldl (fun acc x => acc + f x) 0 = (l.map f).sum := by
  simpa using foldl_add_eq_sum_aux f l 0

/-- C8: getRecipientsPreview is the pure order-preserving display function the
specification describes: none for 0 items, the item for 1, "A and B" for 2,
"A, B, and C" for 3, and "A, B, and N others" with N the count minus 2 for
more. -/
theorem c8_recipients_preview (l : List String) :
    getRecipientsPreview l = specRecipientPreview l := by
  match l with
  | [] => rfl
  | [a] => rfl
  | [a, b] => rfl
  | [a, b, c] => rfl
  | a :: b :: c :: d :: t =>
    simp only [getRecipientsPreview, specRecipientPreview, List.length_cons]
    have e0 : ¬(t.length + 1 + 1 + 1 + 1 = 0) := by omega
    have e1 : ¬(t.length + 1 + 1 + 1 + 1 = 1) := by omega
    have e2 : ¬(t.length + 1 + 1 + 1 + 1 = 2) := by omega
    have e3 : ¬(t.length + 1 + 1 + 1 + 1 = 3) := by omega
    rw [if_neg e0, if_neg e1, if_neg e2, if_neg e3]
    have e4 : t.length + 1 + 1 + 1 + 1 - 2 = t.length + 1 + 1 := by omega
    simp [List.getD, e4]

/-- C10: getStatsForUser returns the sum of sentSMSCount over the user's
devices (an absent counter read as 0), the analogous receivedSMSCount sum,
the device count, and the api-key count. -/
theorem c10_user_stats (devices : List Device) (apiKeys : List String) :
    getStatsForUser devices apiKeys =
      { totalSentSMSCount := (devices.map (fun d => d.sentSMSCount.getD 0)).sum
        totalReceivedSMSCount :=
          (devices.map (fun d => d.receivedSMSCount.getD 0)).sum
        totalDeviceCount := devices.length
        totalApiKeyCount := apiKeys.length } := by
  simp [getStatsForUser, foldl_add_eq_sum]

/-- Fixture: an enabled device. -/
def devA : Device :=
  { user := "u1", enabled := true, fcmToken := "tok", sentSMSCount := none,
    receivedSMSCount := none }

/-- Fixture: a store holding devA under id d1. -/
def storeA : DeviceStore := [("d1", devA)]

/-- C3 counterexample: on a store with no record for the given id,
deleteDevice does not succeed, it fails with the 404 error, so delete does
not always succeed for every deviceId. -/
theorem c3_counterexample :
    (deleteDevice ([] : DeviceStore) "device1").1 = Except.error GErr.notFound :=
  rfl

/-- C3 (amended): for a deviceId whose device record exists, any number of
repeated deleteDevice calls leaves the store unchanged and each call returns
the same successful empty acknowledgement; a missing record instead yields
the 404 error of the counterexample. -/
theorem c3_soft_delete (store : DeviceStore) (deviceId : String) (d : Device)
    (h : findById store deviceId = some d) (n : Nat) :
    deleteDeviceIter store deviceId n = store
    ∧ (deleteDevice (deleteDeviceIter store deviceId n) deviceId).1 = .ok ()
    ∧ (deleteDevice (deleteDeviceIter store deviceId n) deviceId).2 = store := by
  have hiter : ∀ m, deleteDeviceIter store deviceId m = store := by
    intro m
    induction m with
    | zero => rfl
    | succ k ih => simp [deleteDeviceIter, ih, deleteDevice, h]
  refine ⟨hiter n, ?_, ?_⟩ <;> simp [hiter n, deleteDevice, h]

/-- Witness for the amended C3 at a one-device store and three repeated
deletes. -/
theorem c3_soft_delete_witness :
    deleteDeviceIter storeA "d1" 3 = storeA
    ∧ (deleteDevice (deleteDeviceIter storeA "d1" 3) "d1").1 = .ok ()
    ∧ (deleteDevice (deleteDeviceIter storeA "d1" 3) "d1").2 = storeA :=
  c3_soft_delete storeA "d1" devA rfl 3

/-- Fixture: environment with devA, a permissive quota guard, a batch record
created under id 1, and a transport accepting one payload per call. -/
def envOk : Env :=
  { device := some devA, quota := fun _ _ _ => true, batchCreate := .ok 1,
    transport := fun _ => .ok { successCount := 1, failureCount := 0 } }

/-- Fixture: inbound DTO carrying both timestamp forms, with distinct
instants. -/
def dtoBoth : ReceivedSMSDTO :=
  { receivedAt := some 5000, receivedAtInMillis := some 7000,
    sender := some "+15551234", message := some "hi" }

/-- C1 counterexample: with both timestamp fields present the stored
receivedAt is the millis-derived instant 7000, not the absolute timestamp
5000, so the absolute timestamp does not take precedence. -/
theorem c1_counterexample :
    (receiveSMS envOk dtoBoth).1 =
      .ok { sender := "+15551234", message := "hi", receivedAt := 7000 }
    ∧ dtoBoth.receivedAt = some 5000 ∧ ((7000 : Int) = 5000 → False) :=
  ⟨rfl, rfl, by decide⟩

/-- C1 (amended): the persisted receivedAt is derived from the epoch-millis
field whenever that field is present and nonzero, even when the absolute
timestamp is also present; the absolute timestamp is used exactly when the
millis field is absent or zero. -/
theorem c1_millis_precedence (env : Env) (dto : ReceivedSMSDTO) (r : SMSRecord)
    (h : (receiveSMS env dto).1 = .ok r) :
    (∀ m, dto.receivedAtInMillis = some m → m ≠ 0 → r.receivedAt = m)
    ∧ ((dto.receivedAtInMillis = none ∨ dto.receivedAtInMillis = some 0) →
        ∀ t, dto.receivedAt = some t → r.receivedAt = t) := by
  rcases hd : env.device with _ | device
  · simp only [receiveSMS, hd] at h; simp at h
  · simp only [receiveSMS, hd] at h
    by_cases hq : env.quota device.user "receive_sms" 1 = false
    · rw [if_pos hq] at h; simp at h
    · rw [if_neg hq] at h
      by_cases hv : invalidInbound dto = true
      · simp only [hv, if_true] at h; simp at h
      · simp only [hv] at h
        simp only [Bool.false_eq_true, if_false, Except.ok.injEq] at h
        constructor
        · intro m hm hm0
          rw [← h]
          simp [hm, jsTruthyMillis, hm0]
        · intro hmz t ht
          rw [← h]
          rcases hmz with hmz | hmz <;> simp [hmz, ht, jsTruthyMillis]

/-- Witness for the amended C1: millis 7000 beats absolute 5000, and with a
zero millis field the absolute instant 5000 is stored. -/
theorem c1_millis_precedence_witness :
    ({ sender := "+15551234", message := "hi", receivedAt := 7000 } :
        SMSRecord).receivedAt = 7000
    ∧ ({ sender := "+15551234", message := "hi", receivedAt := 5000 } :
        SMSRecord).receivedAt = 5000 :=
  ⟨(c1_millis_precedence envOk dtoBoth _ rfl).1 7000 rfl (by decide),
   (c1_millis_precedence envOk
      { receivedAt := some 5000, receivedAtInMillis := some 0,
        sender := some "+15551234", message := some "hi" } _ rfl).2
      (Or.inr rfl) 5000 rfl⟩

/-- Fixture: single-send payload with a body but no recipient field under
either name. -/
def smsMissingRecipients : SendSMSInput :=
  { message := some "hello", smsBody := none, recipients := .absent,
    receivers := .absent }

/-- Fixture: single-send payload with a body and an empty recipient array. -/
def smsEmptyRecipients : SendSMSInput :=
  { message := some "hello", smsBody := none, recipients := .arr [],
    receivers := .absent }

/-- C2 (code bug): when the recipient list is missing under both names,
sendSMS raises a raw TypeError reading length of undefined while building the
quota-call arguments, so neither the quota check nor the InvalidRecipients
rejection happens (empty trace); with an empty array the documented order
does hold: the quota guard is consulted with count 0 and the call then fails
with InvalidRecipients. -/
theorem c2_missing_recipients_type_error :
    (sendSMS envOk smsMissingRecipients).1 = .error (.typeError "length")
    ∧ (sendSMS envOk smsMissingRecipients).2 = []
    ∧ (sendSMS envOk smsEmptyRecipients).1 = .error .invalidRecipients
    ∧ (sendSMS envOk smsEmptyRecipients).2 = [Event.quotaCheck "send_sms" 0] :=
  ⟨rfl, rfl, rfl, rfl⟩

/-- C4: when creating the SMSBatch record fails on a single send that reached
persistence, sendSMS fails with the batch-persist error carrying the
underlying cause, and the only side effect is the earlier quota check: no
MessageUnit record is created and no transport call is made. -/
theorem c4_batch_persist_aborts (env : Env) (smsData : SendSMSInput)
    (d : Device) (recips : List String) (msg cause : String)
    (hdev : env.device = some d) (hen : d.enabled = true)
    (hrec : RecipientsField.orJS smsData.recipients smsData.receivers =
      .arr recips)
    (hne : recips ≠ [])
    (hq : env.quota d.user "send_sms" recips.length = true)
    (hmsg : strOr smsData.message smsData.smsBody = some msg)
    (hmsgne : msg ≠ "")
    (hbc : env.batchCreate = .error cause) :
    (sendSMS env smsData).1 = .error (.batchPersistError cause)
    ∧ (sendSMS env smsData).2 = [Event.quotaCheck "send_sms" recips.length] := by
  have hlen : ¬ recips.length = 0 := by simpa using hne
  simp [sendSMS, hdev, hen, hrec, hq, hmsg, jsFalsyStr, hmsgne, hlen, hbc]

/-- Fixture: environment whose SMSBatch creation rejects. -/
def envBatchFail : Env := { envOk with batchCreate := .error "db down" }

/-- Fixture: well-formed single-send payload with two recipients. -/
def smsTwoRecips : SendSMSInput :=
  { message := some "hello", smsBody := none, recipients := .arr ["+1", "+2"],
    receivers := .absent }

/-- Witness for C4 at a concrete failing batch creation. -/
theorem c4_batch_persist_aborts_witness :
    (sendSMS envBatchFail smsTwoRecips).1 =
      .error (.batchPersistError "db down")
    ∧ (sendSMS envBatchFail smsTwoRecips).2 =
        [Event.quotaCheck "send_sms" 2] :=
  c4_batch_persist_aborts envBatchFail smsTwoRecips devA ["+1", "+2"] "hello"
    "db down" rfl rfl rfl (by decide) rfl rfl (by decide) rfl

/-- C5: a single send whose transport response reports zero successes fails
with the re-thrown zero-success error carrying the full transport response,
and no counter increment is scheduled (no counterIncrement event appears in
the side-effect trace). -/
theorem c5_zero_success_delivery_failed (env : Env) (smsData : SendSMSInput)
    (d : Device) (recips : List String) (msg : String) (batchId : Nat)
    (resp : BatchResponse)
    (hdev : env.device = some d) (hen : d.enabled = true)
    (hrec : RecipientsField.orJS smsData.recipients smsData.receivers =
      .arr recips)
    (hne : recips ≠ [])
    (hq : env.quota d.user "send_sms" recips.length = true)
    (hmsg : strOr smsData.message smsData.smsBody = some msg)
    (hmsgne : msg ≠ "")
    (hbc : env.batchCreate = .ok batchId)
    (htp : env.transport 0 = .ok resp)
    (hzero : resp.successCount = 0) :
    (sendSMS env smsData).1 = .error (.sendFailure (.zeroSuccessRethrown resp))
    ∧ ∀ f n, Event.counterIncrement f n ∉ (sendSMS env smsData).2 := by
  have hlen : ¬ recips.length = 0 := by simpa using hne
  constructor
  · simp [sendSMS, hdev, hen, hrec, hq, hmsg, jsFalsyStr, hmsgne, hlen, hbc,
      htp, hzero]
  · intro f n
    simp [sendSMS, hdev, hen, hrec, hq, hmsg, jsFalsyStr, hmsgne, hlen, hbc,
      htp, hzero]

/-- Fixture: environment whose transport rejects every payload of the one
call (successCount 0). -/
def envZeroSuccess : Env :=
  { envOk with transport := fun _ => .ok { successCount := 0, failureCount := 2 } }

/-- Witness for C5 at a concrete all-rejected transport response. -/
theorem c5_zero_success_witness :
    (sendSMS envZeroSuccess smsTwoRecips).1 =
      .error (.sendFailure (.zeroSuccessRethrown
        { successCount := 0, failureCount := 2 }))
    ∧ Event.counterIncrement "sentSMSCount" 5 ∉
        (sendSMS envZeroSuccess smsTwoRecips).2 := by
  have h := c5_zero_success_delivery_failed envZeroSuccess smsTwoRecips devA
    ["+1", "+2"] "hello" 1 { successCount := 0, failureCount := 2 }
    rfl rfl rfl (by decide) rfl rfl (by decide) rfl rfl rfl
  exact ⟨h.1, h.2 "sentSMSCount" 5⟩

/-- C6: a bulk send on an enabled device whose flattened total recipient
count exceeds 50 fails with the recipient-limit error when the quota guard
passes, with the quota consultation (carrying that total) as the only side
effect — in particular no SMSBatch record is created; and when the quota
guard refuses, the quota error wins instead, showing the limit check sits
after the quota check. -/
theorem c6_recipient_limit (env : Env) (body : SendBulkSMSInput) (d : Device)
    (msgs : List BulkSubMessage)
    (hdev : env.device = some d) (hen : d.enabled = true)
    (hmsgs : body.messages = some msgs)
    (htot : 50 < totalFlatRecipients msgs) :
    (env.quota d.user "bulk_send_sms" (totalFlatRecipients msgs) = true →
      (sendBulkSMS env body).1 = .error .recipientLimitExceeded
      ∧ (sendBulkSMS env body).2 =
          [Event.quotaCheck "bulk_send_sms" (totalFlatRecipients msgs)])
    ∧ (env.quota d.user "bulk_send_sms" (totalFlatRecipients msgs) = false →
      (sendBulkSMS env body).1 = .error .quotaExceeded) := by
  have hne : (msgs.length == 0 || totalFlatRecipients msgs == 0) = false := by
    rcases msgs with _ | ⟨m, rest⟩
    · simp [totalFlatRecipients] at htot
    · simp
      omega
  constructor
  · intro hq
    simp [sendBulkSMS, hdev, hen, hmsgs, hq, hne, htot]
  · intro hq
    simp [sendBulkSMS, hdev, hen, hmsgs, hq]

/-- Fixture: a bulk request with one sub-message addressing 51 recipients. -/
def msgs51 : List BulkSubMessage :=
  [{ message := some "m", recipients := .arr (List.replicate 51 "+1") }]

/-- Fixture: the bulk body wrapping msgs51. -/
def body51 : SendBulkSMSInput :=
  { messageTemplate := some "t", messages := some msgs51 }

/-- Fixture: environment whose quota guard refuses every action. -/
def envNoQuota : Env := { envOk with quota := fun _ _ _ => false }

/-- Witness for C6 at a 51-recipient bulk request, under a passing and under
a refusing quota guard. -/
theorem c6_recipient_limit_witness :
    ((sendBulkSMS envOk body51).1 = .error .recipientLimitExceeded
      ∧ (sendBulkSMS envOk body51).2 =
          [Event.quotaCheck "bulk_send_sms" (totalFlatRecipients msgs51)])
    ∧ (sendBulkSMS envNoQuota body51).1 = .error .quotaExceeded :=
  ⟨(c6_recipient_limit envOk body51 devA msgs51 rfl rfl rfl (by decide)).1 rfl,
   (c6_recipient_limit envNoQuota body51 devA msgs51 rfl rfl rfl
      (by decide)).2 rfl⟩

/-- Fixture: a bulk request pairing one valid sub-message with one whose
recipients field is missing. -/
def bodyAbsentSub : SendBulkSMSInput :=
  { messageTemplate := some "t",
    messages := some
      [{ message := some "hi", recipients := .arr ["+1"] },
       { message := some "yo", recipients := .absent }] }

/-- C7 counterexample: a sub-message with a missing recipients field is not
skipped silently — after the device, quota, message-list and recipient-limit
checks all pass, the whole request fails with a raw TypeError reading length
of undefined while computing the batch recipientCount, before any SMSBatch
record is created, and the valid sub-message contributes nothing. -/
theorem c7_counterexample :
    (sendBulkSMS envOk bodyAbsentSub).1 = .error (.typeError "length")
    ∧ (sendBulkSMS envOk bodyAbsentSub).2 =
        [Event.quotaCheck "bulk_send_sms" 2] :=
  ⟨rfl, rfl⟩

/-- C7 (amended): within the bulk dispatch loop a sub-message with a falsy
body, an empty recipient array, or a truthy non-array recipients value is
skipped silently, contributing no MessageUnit, no transport call and no
response; a transport exception on a non-skipped sub-message leaves the
responses to exactly those of the remaining sub-messages; and a successful
bulk result aggregates successCount and failureCount as the sums over the
obtained responses with overall success exactly when the success sum is
positive. (A missing recipients field instead crashes the whole request with
a TypeError, per the counterexample.) -/
theorem c7_bulk_dispatch (tp : Nat → Except String BatchResponse)
    (batchId k : Nat) (sub : BulkSubMessage) (rest : List BulkSubMessage)
    (env : Env) (body : SendBulkSMSInput) (r : BulkResult) :
    (isSkippedSub sub = true →
      bulkDispatchLoop tp batchId k (sub :: rest) =
        bulkDispatchLoop tp batchId k rest)
    ∧ (isSkippedSub sub = false → ∀ cause, tp k = .error cause →
        (bulkDispatchLoop tp batchId k (sub :: rest)).1 =
          (bulkDispatchLoop tp batchId (k + 1) rest).1)
    ∧ ((sendBulkSMS env body).1 = .ok r →
        r.successCount = (r.fcmResponses.map BatchResponse.successCount).sum
        ∧ r.failureCount = (r.fcmResponses.map BatchResponse.failureCount).sum
        ∧ (r.success = true ↔ 0 < r.successCount)) := by
  refine ⟨?_, ?_, ?_⟩
  · intro hs
    by_cases hm : jsFalsyStr sub.message = true
    · simp [bulkDispatchLoop, hm]
    · have hm' : jsFalsyStr sub.message = false := by
        revert hm; cases jsFalsyStr sub.message <;> simp
      rcases hr : sub.recipients with _ | l | n
      · simp [bulkDispatchLoop, hm', hr]
      · have hl : l.isEmpty = true := by
          simpa [isSkippedSub, hm', hr] using hs
        have hl0 : l = [] := by
          rcases l with _ | ⟨x, xs⟩
          · rfl
          · simp [List.isEmpty] at hl
        subst hl0
        simp [bulkDispatchLoop, hm', hr]
      · simp [bulkDispatchLoop, hm', hr]
  · intro hns cause htp
    rcases hr : sub.recipients with _ | l | n
    · simp [isSkippedSub, hr] at hns
    · have hm' : jsFalsyStr sub.message = false ∧ l.isEmpty = false := by
        simpa [isSkippedSub, hr] using hns
      have hlne : ¬ l.length = 0 := by
        rcases l with _ | ⟨x, xs⟩
        · simp [List.isEmpty] at hm'
        · simp
      simp [bulkDispatchLoop, hm'.1, hr, hlne, htp]
    · simp [isSkippedSub, hr] at hns
  · intro hok
    rcases hd : env.device with _ | device
    · simp [sendBulkSMS, hd] at hok
    · by_cases hen : device.enabled = false
      · simp [sendBulkSMS, hd, hen] at hok
      · rcases hms : body.messages with _ | msgs
        · simp [sendBulkSMS, hd, hen, hms] at hok
        · by_cases hq : env.quota device.user "bulk_send_sms"
              (totalFlatRecipients msgs) = false
          · simp [sendBulkSMS, hd, hen, hms, hq] at hok
          · by_cases hc1 :
                (msgs.length == 0 || totalFlatRecipients msgs == 0) = true
            · simp [sendBulkSMS, hd, hen, hms, hq, hc1] at hok
            · by_cases hc2 : 50 < totalFlatRecipients msgs
              · simp [sendBulkSMS, hd, hen, hms, hq, hc1, hc2] at hok
              · rcases hrs : recipientsLengthSum msgs with _ | rc
                · simp [sendBulkSMS, hd, hen, hms, hq, hc1, hc2, hrs] at hok
                · rcases hbc : env.batchCreate with cause | batchId
                  · simp [sendBulkSMS, hd, hen, hms, hq, hc1, hc2, hrs, hbc]
                      at hok
                  · simp [sendBulkSMS, hd, hen, hms, hq, hc1, hc2, hrs, hbc]
                      at hok
                    subst hok
                    refine ⟨?_, ?_, ?_⟩ <;>
                      simp [foldl_add_eq_sum]

/-- Fixture: a sub-message skipped for its falsy body. -/
def subSkip : BulkSubMessage := { message := none, recipients := .arr ["+9"] }

/-- Fixture: a non-skipped sub-message with one recipient. -/
def subGood : BulkSubMessage := { message := some "go", recipients := .arr ["+3"] }

/-- Fixture: remainder of a bulk sub-message list, one valid sub-message with
two recipients. -/
def restA : List BulkSubMessage :=
  [{ message := some "hi", recipients := .arr ["+1", "+2"] }]

/-- Fixture: transport accepting one payload per call. -/
def tpOk : Nat → Except String BatchResponse :=
  fun _ => .ok { successCount := 1, failureCount := 0 }

/-- Fixture: transport throwing on every call. -/
def tpErr : Nat → Except String BatchResponse := fun _ => .error "down"

/-- Fixture: bulk body wrapping restA. -/
def bodyAgg : SendBulkSMSInput :=
  { messageTemplate := some "t", messages := some restA }

/-- Fixture: the bulk result sendBulkSMS returns on envOk and bodyAgg. -/
def rAgg : BulkResult :=
  { success := true, successCount := 1, failureCount := 0,
    fcmResponses := [{ successCount := 1, failureCount := 0 }] }

/-- Witness for the amended C7: a concrete skip, a concrete
continue-after-transport-exception, and a concrete aggregate result. -/
theorem c7_bulk_dispatch_witness :
    bulkDispatchLoop tpOk 1 0 (subSkip :: restA) = bulkDispatchLoop tpOk 1 0 restA
    ∧ (bulkDispatchLoop tpErr 1 0 (subGood :: restA)).1 =
        (bulkDispatchLoop tpErr 1 (0 + 1) restA).1
    ∧ (rAgg.successCount = (rAgg.fcmResponses.map BatchResponse.successCount).sum
       ∧ rAgg.failureCount = (rAgg.fcmResponses.map BatchResponse.failureCount).sum
       ∧ (rAgg.success = true ↔ 0 < rAgg.successCount)) :=
  ⟨(c7_bulk_dispatch tpOk 1 0 subSkip restA envOk bodyAgg rAgg).1 rfl,
   (c7_bulk_dispatch tpErr 1 0 subGood restA envOk bodyAgg rAgg).2.1 rfl
     "down" rfl,
   (c7_bulk_dispatch tpOk 1 0 subSkip restA envOk bodyAgg rAgg).2.2 rfl⟩

/-- C9: receiveSMS fails with the device-unavailable error exactly when the
device is missing, and its outcome is entirely independent of the device's
enabled flag (a disabled device still accepts inbound messages); the outbound
paths are asymmetric: sendSMS and sendBulkSMS fail with the same error
exactly when the device is missing or disabled. -/
theorem c9_device_check_asymmetry (env : Env) (dto : ReceivedSMSDTO)
    (smsData : SendSMSInput) (body : SendBulkSMSInput) :
    ((receiveSMS env dto).1 = .error .deviceUnavailable ↔ env.device = none)
    ∧ (∀ d b, env.device = some d →
        receiveSMS { env with device := some { d with enabled := b } } dto =
          receiveSMS env dto)
    ∧ ((sendSMS env smsData).1 = .error .deviceUnavailable ↔
        (env.device = none ∨ ∃ d, env.device = some d ∧ d.enabled = false))
    ∧ ((sendBulkSMS env body).1 = .error .deviceUnavailable ↔
        (env.device = none ∨ ∃ d, env.device = some d ∧ d.enabled = false)) := by
  refine ⟨?_, ?_, ?_, ?_⟩
  · rcases hd : env.device with _ | d
    · simp [receiveSMS, hd]
    · by_cases hq : env.quota d.user "receive_sms" 1 = false
      · simp [receiveSMS, hd, hq]
      · by_cases hv : invalidInbound dto = true
        · simp [receiveSMS, hd, hq, hv]
        · simp [receiveSMS, hd, hq, hv]
  · intro d b hd
    simp [receiveSMS, hd]
  · rcases hd : env.device with _ | d
    · simp [sendSMS, hd]
    · by_cases he : d.enabled = false
      · simp [sendSMS, hd, he]
      · constructor
        · intro h
          exfalso
          rcases hr : RecipientsField.orJS smsData.recipients smsData.receivers
            with _ | l | n
          all_goals simp only [sendSMS, hd, hr] at h
          all_goals rw [if_neg he] at h
          · simp at h
          · split at h
            · simp at h
            · split at h
              · simp at h
              · split at h
                · simp at h
                · split at h
                  · simp at h
                  · split at h
                    · simp at h
                    · split at h
                      · simp at h
                      · simp at h
          · split at h
            · simp at h
            · split at h
              · simp at h
              · simp at h
        · intro h
          rcases h with h | ⟨d', hd', he2⟩
          · exact Option.noConfusion h
          · injection hd' with e
            subst e
            exact absurd he2 he
  · rcases hd : env.device with _ | d
    · simp [sendBulkSMS, hd]
    · by_cases he : d.enabled = false
      · simp [sendBulkSMS, hd, he]
      · constructor
        · intro h
          exfalso
          rcases hms : body.messages with _ | msgs
          all_goals simp only [sendBulkSMS, hd, hms] at h
          all_goals rw [if_neg he] at h
          · simp at h
          · split at h
            · simp at h
            · split at h
              · simp at h
              · split at h
                · simp at h
                · split at h
                  · simp at h
                  · split at h
                    · simp at h
                    · simp at h
        · intro h
          rcases h with h | ⟨d', hd', he2⟩
          · exact Option.noConfusion h
          · injection hd' with e
            subst e
            exact absurd he2 he

/-- Witness for C9: flipping the enabled flag of the resolved device to false
does not change the inbound outcome at a concrete environment and DTO. -/
theorem c9_device_check_asymmetry_witness :
    receiveSMS { envOk with device := some { devA with enabled := false } }
        dtoBoth =
      receiveSMS envOk dtoBoth :=
  (c9_device_check_asymmetry envOk dtoBoth smsTwoRecips bodyAgg).2.1 devA
    false rfl
